import Mathlib

/-!
Verification of the media-transcriber front-end core: the chunked
binary-to-base64 encoder (`fileToBase64`), the transcription client
(`transcribeMedia`) and the orchestration state machine, shallowly embedded
from the TypeScript source. Machine integers are modelled as `Nat` (bytes
carry an explicit `< 256` bound), fallible code returns `Except`, and the
remote service is an explicit parameter recording its outcome.
-/

set_option maxHeartbeats 1000000
set_option maxRecDepth 100000

/-- Boolean test that the first character list is an initial segment of the
second, the elementary matching step of substring search. -/
def leadMatch : List Char → List Char → Bool
  | [], _ => true
  | _ :: _, [] => false
  | p :: ps, c :: cs => p == c && leadMatch ps cs

/-- Boolean substring test on character lists, modelling JavaScript
`String.prototype.includes` (the empty pattern is always contained). -/
def charsContains : List Char → List Char → Bool
  | [], pat => pat.isEmpty
  | c :: cs, pat => leadMatch pat (c :: cs) || charsContains cs pat

/-- Substring test on strings, modelling `s.includes(needle)`. -/
def strContains (s pat : String) : Bool :=
  charsContains s.data pat.data

/-- Character alphabet of standard base64, as used by the platform `btoa`. -/
def b64Alphabet : List Char :=
  "ABCDEFGHIJKLMNOPQRSTUVWXYZabcdefghijklmnopqrstuvwxyz0123456789+/".data

/-- Digit-to-character table of base64. -/
def b64Char (n : Nat) : Char := b64Alphabet.getD n 'A'

/-- Position of a character inside a character list (0 when absent). -/
def b64IndexAux : List Char → Char → Nat
  | [], _ => 0
  | a :: rest, c => if a = c then 0 else b64IndexAux rest c + 1

/-- Position of a character in the base64 alphabet (inverse of `b64Char`). -/
def b64Index (c : Char) : Nat := b64IndexAux b64Alphabet c

/-- Standard base64 encoding of a byte sequence, modelling the platform
`btoa` applied to a binary string whose code units are exactly the bytes
(`src/unnamed/part_000` line 105). Bytes are consumed three at a time; a
trailing group of one or two bytes is padded with `=`. -/
def btoa : List Nat → List Char
  | [] => []
  | [b0] => [b64Char (b0 / 4), b64Char (b0 % 4 * 16), '=', '=']
  | [b0, b1] =>
      [b64Char (b0 / 4), b64Char (b0 % 4 * 16 + b1 / 16), b64Char (b1 % 16 * 4), '=']
  | b0 :: b1 :: b2 :: rest =>
      b64Char (b0 / 4) :: b64Char (b0 % 4 * 16 + b1 / 16) ::
        b64Char (b1 % 16 * 4 + b2 / 64) :: b64Char (b2 % 64) :: btoa rest

/-- Reference base64 decoder, the `decode` of spec §8: four characters at a
time, honouring `=` padding. Stated from the spec's words to be compared
with the encoder taken from the source. -/
def base64Decode : List Char → List Nat
  | c0 :: c1 :: c2 :: c3 :: rest =>
      if c2 = '=' then [b64Index c0 * 4 + b64Index c1 / 16]
      else if c3 = '=' then
        [b64Index c0 * 4 + b64Index c1 / 16,
         b64Index c1 % 16 * 16 + b64Index c2 / 4]
      else
        (b64Index c0 * 4 + b64Index c1 / 16) ::
          (b64Index c1 % 16 * 16 + b64Index c2 / 4) ::
          (b64Index c2 % 4 * 64 + b64Index c3) :: base64Decode rest
  | _ => []

/-- Chunked accumulation loop of `fileToBase64` (`src/unnamed/part_000`
lines 96-103): the byte array is consumed in 32768-byte (0x8000) chunks,
each converted to characters and appended to the binary accumulator. -/
def chunkBinary (bytes : List Nat) : List Nat :=
  if h : bytes = [] then []
  else bytes.take 32768 ++ chunkBinary (bytes.drop 32768)
termination_by bytes.length
decreasing_by
  have hpos : 0 < bytes.length := List.length_pos.mpr h
  simp [List.length_drop]
  omega

/-- Model of `fileToBase64` (`src/unnamed/part_000` lines 82-119): the
file's bytes are accumulated chunkwise into a binary string, which is then
base64-encoded with `btoa`. The file is represented by its byte contents;
the `FileReader` read itself is outside the byte-level model. -/
def fileToBase64 (bytes : List Nat) : String :=
  String.mk (btoa (chunkBinary bytes))

/-- Decoding a base64 string: the reference decoder on its characters. -/
def base64DecodeString (s : String) : List Nat :=
  base64Decode s.data

/-- Digit round trip of the base64 tables: indexing the alphabet undoes the
digit-to-character table on all 64 digits. -/
theorem b64_rt : ∀ n, n < 64 → b64Index (b64Char n) = n := by decide

/-- No base64 digit character is the padding character. -/
theorem b64Char_ne_pad : ∀ n, n < 64 → ¬ (b64Char n = '=') := by decide

/-- The chunked accumulation loop reproduces the byte sequence unchanged. -/
theorem chunkBinary_eq (l : List Nat) : chunkBinary l = l := by
  induction l using chunkBinary.induct with
  | case1 => rw [chunkBinary]; simp
  | case2 l h ih => rw [chunkBinary]; simp [h, ih, List.take_append_drop]

/-- Decoding undoes base64 encoding on every byte sequence. -/
theorem btoa_roundtrip (l : List Nat) (hb : ∀ b ∈ l, b < 256) :
    base64Decode (btoa l) = l := by
  induction l using btoa.induct with
  | case1 => rfl
  | case2 b0 =>
      have h0 : b0 < 256 := hb b0 (by simp)
      have e1 : b64Index (b64Char (b0 / 4)) = b0 / 4 := b64_rt _ (by omega)
      have e2 : b64Index (b64Char (b0 % 4 * 16)) = b0 % 4 * 16 := b64_rt _ (by omega)
      simp only [btoa, base64Decode]
      simp [e1, e2]
      omega
  | case3 b0 b1 =>
      have h0 : b0 < 256 := hb b0 (by simp)
      have h1 : b1 < 256 := hb b1 (by simp)
      have ne2 : ¬ (b64Char (b1 % 16 * 4) = '=') := b64Char_ne_pad _ (by omega)
      have e1 : b64Index (b64Char (b0 / 4)) = b0 / 4 := b64_rt _ (by omega)
      have e2 : b64Index (b64Char (b0 % 4 * 16 + b1 / 16)) = b0 % 4 * 16 + b1 / 16 :=
        b64_rt _ (by omega)
      have e3 : b64Index (b64Char (b1 % 16 * 4)) = b1 % 16 * 4 := b64_rt _ (by omega)
      simp only [btoa, base64Decode]
      simp [ne2, e1, e2, e3]
      omega
  | case4 b0 b1 b2 rest ih =>
      have h0 : b0 < 256 := hb b0 (by simp)
      have h1 : b1 < 256 := hb b1 (by simp)
      have h2 : b2 < 256 := hb b2 (by simp)
      have ne2 : ¬ (b64Char (b1 % 16 * 4 + b2 / 64) = '=') := b64Char_ne_pad _ (by omega)
      have ne3 : ¬ (b64Char (b2 % 64) = '=') := b64Char_ne_pad _ (by omega)
      have e1 : b64Index (b64Char (b0 / 4)) = b0 / 4 := b64_rt _ (by omega)
      have e2 : b64Index (b64Char (b0 % 4 * 16 + b1 / 16)) = b0 % 4 * 16 + b1 / 16 :=
        b64_rt _ (by omega)
      have e3 : b64Index (b64Char (b1 % 16 * 4 + b2 / 64)) = b1 % 16 * 4 + b2 / 64 :=
        b64_rt _ (by omega)
      have e4 : b64Index (b64Char (b2 % 64)) = b2 % 64 := b64_rt _ (by omega)
      have ihr : base64Decode (btoa rest) = rest := ih (fun b hbb => hb b (by simp [hbb]))
      simp only [btoa, base64Decode]
      simp [ne2, ne3, e1, e2, e3, e4, ihr]
      refine ⟨by omega, by omega, by omega⟩

/-- Length of a base64 encoding: four characters per started three-byte
group, padding included. -/
theorem btoa_length (l : List Nat) : (btoa l).length = (l.length + 2) / 3 * 4 := by
  induction l using btoa.induct with
  | case1 => rfl
  | case2 b0 => simp [btoa]
  | case3 b0 b1 => simp [btoa]
  | case4 b0 b1 b2 rest ih => simp [btoa, ih]; omega

/-- C1: for every byte buffer of length at most 500 MiB (bytes being values
below 256), decoding the base64 string produced by `fileToBase64` on a file
with those contents yields exactly the original buffer; lengths 0, 1, 3k,
3k+1 and 3k+2 are all covered by the universal quantifier. -/
theorem fileToBase64_decode_roundtrip (bytes : List Nat)
    (hlen : bytes.length ≤ 500 * 1024 * 1024) (hb : ∀ b ∈ bytes, b < 256) :
    base64DecodeString (fileToBase64 bytes) = bytes := by
  show base64Decode (btoa (chunkBinary bytes)) = bytes
  rw [chunkBinary_eq]
  exact btoa_roundtrip bytes hb

/-- Witness for C1 at the concrete 4-byte buffer `[0, 255, 10, 77]`. -/
theorem fileToBase64_decode_roundtrip_witness :
    ([0, 255, 10, 77] : List Nat).length ≤ 500 * 1024 * 1024 ∧
    (∀ b ∈ ([0, 255, 10, 77] : List Nat), b < 256) ∧
    base64DecodeString (fileToBase64 [0, 255, 10, 77]) = [0, 255, 10, 77] :=
  ⟨by decide, by decide, fileToBase64_decode_roundtrip _ (by decide) (by decide)⟩

/-- C2: the encoder is a total function of the byte buffer (it cannot fail
in the byte-level model), and for every buffer of length at most 500 MiB
its output has exactly ceil(L/3)*4 characters, padding included; for the
empty buffer the output is the empty string, not a failure. -/
theorem fileToBase64_length_spec (bytes : List Nat)
    (hlen : bytes.length ≤ 500 * 1024 * 1024) :
    (fileToBase64 bytes).length = (bytes.length + 2) / 3 * 4 ∧
    fileToBase64 [] = "" := by
  constructor
  · show (btoa (chunkBinary bytes)).length = _
    rw [chunkBinary_eq, btoa_length]
  · show String.mk (btoa (chunkBinary [])) = ""
    rw [chunkBinary_eq]
    rfl

/-- Witness for C2 at the concrete 2-byte buffer `[1, 2]`. -/
theorem fileToBase64_length_spec_witness :
    ([1, 2] : List Nat).length ≤ 500 * 1024 * 1024 ∧
    ((fileToBase64 [1, 2]).length = (([1, 2] : List Nat).length + 2) / 3 * 4 ∧
      fileToBase64 [] = "") :=
  ⟨by decide, fileToBase64_length_spec [1, 2] (by decide)⟩

/-- Error message thrown when the API key is missing (`src/unnamed/part_000`
line 16), the Configuration error of the spec taxonomy. -/
def apiKeyMissingMsg : String :=
  "API Key is missing. Please check your environment configuration."

/-- Error message thrown when the payload is empty (line 20), an
InvalidInput error of the spec taxonomy. -/
def mediaDataMissingMsg : String :=
  "Media data is missing or corrupted. Please try re-uploading the file."

/-- Error message thrown when the implied decoded size exceeds 500 MB
(line 26), the InvalidInput too-large error of the spec taxonomy. -/
def tooLargeMsg : String :=
  "The file is too large for direct upload (limit: 500MB)."

/-- Error message thrown when the response carries no text (line 60), the
EmptyResponse error of the spec taxonomy. -/
def emptyResponseMsg : String :=
  "The AI returned an empty response. This can happen if the media content is not recognized or contains no speech."

/-- Error message thrown when the service rejects the media (line 70), the
MediaRejected error of the spec taxonomy. -/
def mediaRejectedMsg : String :=
  "The model rejected this media format or the file size was too large for a single request. Try using a standard MP3 or a smaller MP4 clip."

/-- Fallback message of the final re-throw (line 73), the generic
ServiceError text used when the underlying message is empty. -/
def genericServiceMsg : String :=
  "An error occurred while communicating with the Gemini API."

/-- Needle of the invalid-media check (line 69). -/
def invalidVideoNeedle : String := "Invalid video data"

/-- Needle of the invalid-argument check (line 69). -/
def invalidArgNeedle : String := "INVALID_ARGUMENT"

/-- Apostrophe character, kept out of string literals. -/
def apoChar : Char := Char.ofNat 39

/-- Timestamp-requiring instruction (line 33). -/
def timestampOnMsg : String :=
  "Include timestamps in [HH:MM:SS] format at the beginning of each paragraph or when a new speaker starts. Ensure they are accurate to the media" ++
    String.mk [apoChar] ++ "s timeline."

/-- Timestamp-forbidding instruction (line 34). -/
def timestampOffMsg : String := "Do not include any timestamps."

/-- Instruction selected by the timestamp flag (lines 32-34). -/
def timestampInstruction (includeTimestamps : Bool) : String :=
  if includeTimestamps then timestampOnMsg else timestampOffMsg

/-- Instruction text of the request (lines 48-52): the template literal
naming the media kind (video when the MIME type starts with "video"), the
selected timestamp instruction, speaker labelling and the no-filler
requirement, with the literal's newlines and indentation. -/
def promptText (mimeType : String) (includeTimestamps : Bool) : String :=
  "Carefully transcribe the following " ++
    (if mimeType.startsWith "video" then "video" else "audio") ++
    (" file. \n            Output the transcription as clear text. \n            " ++
      (timestampInstruction includeTimestamps ++
        "\n            If there are multiple speakers, label them clearly (e.g., Speaker A, Speaker B).\n            Provide ONLY the transcription text without any conversational filler or meta-commentary."))

/-- Request sent to the remote model: inline data tagged with its MIME type
plus the instruction text (lines 37-55). -/
structure GenRequest where
  mimeType : String
  data : String
  instruction : String
deriving DecidableEq

/-- Outcome of the single remote `generateContent` call: a response whose
`text` field may be absent (`none`) or any string, or a thrown failure
carrying its message. -/
inductive RemoteResult where
  | success (text : Option String)
  | failure (msg : String)
deriving DecidableEq

/-- Stand-in for `JSON.stringify(error)` when the thrown error has an empty
message (line 67): a plain Error object stringifies to "\x7b\x7d". -/
def stringifyEmptyError : String := "\x7b\x7d"

/-- Catch-block mapping of a thrown message (lines 64-74): an invalid-media
or invalid-argument message becomes the rejection message; otherwise the
underlying message is re-thrown, with the generic fallback when it is
empty. -/
def mapCaughtError (msg : String) : String :=
  let errorStr := if msg = "" then stringifyEmptyError else msg
  if strContains errorStr invalidVideoNeedle || strContains errorStr invalidArgNeedle then
    mediaRejectedMsg
  else if msg = "" then genericServiceMsg else msg

/-- Model of `transcribeMedia` (lines 14-75). The configured API key and
the remote outcome are explicit parameters; the result pairs the returned
text or thrown message with the list of network requests issued, so that
performing no network call is the empty list. The 500 MB check compares
`length * 3 / 4` with `500 * 1024 * 1024` as the source does; JavaScript
float division by 4 is exact at these magnitudes, so the comparison is
written cross-multiplied. The empty-text throw of line 60 happens inside
the `try`, so it too passes through the catch-block mapping. -/
def transcribeMedia (apiKey : String) (remote : RemoteResult)
    (base64Data mimeType : String) (includeTimestamps : Bool := true) :
    Except String String × List GenRequest :=
  if apiKey = "" then (Except.error apiKeyMissingMsg, [])
  else if base64Data = "" then (Except.error mediaDataMissingMsg, [])
  else if 500 * 1024 * 1024 * 4 < base64Data.length * 3 then
    (Except.error tooLargeMsg, [])
  else
    let req : GenRequest := ⟨mimeType, base64Data, promptText mimeType includeTimestamps⟩
    match remote with
    | RemoteResult.failure msg => (Except.error (mapCaughtError msg), [req])
    | RemoteResult.success none => (Except.error (mapCaughtError emptyResponseMsg), [req])
    | RemoteResult.success (some s) =>
        if s = "" then (Except.error (mapCaughtError emptyResponseMsg), [req])
        else (Except.ok s, [req])

/-- Containment facts about the instruction text: the word "video" occurs
in it exactly when the MIME type starts with "video", the timestamp
requirement occurs exactly when the flag is set, and the timestamp
prohibition occurs exactly when the flag is unset. -/
theorem promptText_contains (mime : String) (ts : Bool) :
    strContains (promptText mime ts) "video" = mime.startsWith "video" ∧
    strContains (promptText mime ts) timestampOnMsg = ts ∧
    strContains (promptText mime ts) timestampOffMsg = !ts := by
  cases hv : mime.startsWith "video" <;> cases ts <;>
    simp only [promptText, timestampInstruction, hv] <;> refine ⟨?_, ?_, ?_⟩ <;> decide

/-- The empty-response message passes through the catch mapping intact. -/
theorem mapCaught_empty_resp : mapCaughtError emptyResponseMsg = emptyResponseMsg := by
  decide

/-- An empty thrown message is mapped to the generic fallback message. -/
theorem mapCaught_empty_msg : mapCaughtError "" = genericServiceMsg := by decide

/-- C3: with no authentication credential configured (the environment
fallback makes the key the empty string), every call to `transcribeMedia`
fails with the Configuration error message and issues zero network
requests, for every remote behaviour, payload, MIME type and timestamp
flag. -/
theorem transcribeMedia_no_key (remote : RemoteResult) (base64Data mimeType : String)
    (includeTimestamps : Bool) :
    transcribeMedia "" remote base64Data mimeType includeTimestamps
      = (Except.error apiKeyMissingMsg, []) := by
  simp [transcribeMedia]

/-- C4: with a credential configured, an empty payload fails with the
InvalidInput (missing data) message, and a payload whose implied decoded
size `length * 3 / 4` exceeds 500 MiB fails with the InvalidInput
(too large) message; both without any network request. -/
theorem transcribeMedia_invalid_input (apiKey base64Data mimeType : String)
    (remote : RemoteResult) (includeTimestamps : Bool)
    (hkey : ¬ (apiKey = "")) :
    transcribeMedia apiKey remote "" mimeType includeTimestamps
        = (Except.error mediaDataMissingMsg, []) ∧
    (¬ (base64Data = "") → 500 * 1024 * 1024 * 4 < base64Data.length * 3 →
      transcribeMedia apiKey remote base64Data mimeType includeTimestamps
        = (Except.error tooLargeMsg, [])) := by
  constructor
  · simp [transcribeMedia, hkey]
  · intro hd hs
    simp [transcribeMedia, hkey, hd, hs]

/-- Witness for C4: a configured key, the empty payload, and a payload of
699050668 characters whose implied decoded size exceeds 500 MiB. -/
theorem transcribeMedia_invalid_input_witness :
    (¬ (("k" : String) = "")) ∧
    (¬ (String.mk (List.replicate 699050668 'a') = "")) ∧
    500 * 1024 * 1024 * 4 < (String.mk (List.replicate 699050668 'a')).length * 3 ∧
    transcribeMedia "k" (RemoteResult.success none) "" "audio/mpeg" true
      = (Except.error mediaDataMissingMsg, []) ∧
    transcribeMedia "k" (RemoteResult.success none)
        (String.mk (List.replicate 699050668 'a')) "audio/mpeg" true
      = (Except.error tooLargeMsg, []) := by
  have hk : ¬ (("k" : String) = "") := by decide
  have hlen : (String.mk (List.replicate 699050668 'a')).length = 699050668 := by
    show (List.replicate 699050668 'a').length = 699050668
    rw [List.length_replicate]
  have hd : ¬ (String.mk (List.replicate 699050668 'a') = "") := by
    intro h
    have hc := congrArg String.length h
    rw [hlen] at hc
    exact absurd hc (by decide)
  have hs : 500 * 1024 * 1024 * 4 < (String.mk (List.replicate 699050668 'a')).length * 3 := by
    rw [hlen]
    norm_num
  exact ⟨hk, hd, hs,
    (transcribeMedia_invalid_input "k" (String.mk (List.replicate 699050668 'a'))
      "audio/mpeg" (RemoteResult.success none) true hk).1,
    (transcribeMedia_invalid_input "k" (String.mk (List.replicate 699050668 'a'))
      "audio/mpeg" (RemoteResult.success none) true hk).2 hd hs⟩

/-- Helper: whenever `transcribeMedia` succeeds, the returned text is
non-empty, because the only success branch requires a non-empty text
field. -/
theorem transcribeMedia_ok_nonempty (k d m : String) (ts : Bool) (r : RemoteResult)
    (t : String) (reqs : List GenRequest)
    (h : transcribeMedia k r d m ts = (Except.ok t, reqs)) : ¬ (t = "") := by
  by_cases h1 : k = ""
  · simp [transcribeMedia, h1] at h
  · by_cases h2 : d = ""
    · simp [transcribeMedia, h1, h2] at h
    · by_cases h3 : 500 * 1024 * 1024 * 4 < d.length * 3
      · simp [transcribeMedia, h1, h2, h3] at h
      · cases r with
        | failure msg => simp [transcribeMedia, h1, h2, h3] at h
        | success t0 =>
            cases t0 with
            | none => simp [transcribeMedia, h1, h2, h3] at h
            | some s =>
                by_cases h4 : s = ""
                · simp [transcribeMedia, h1, h2, h3, h4] at h
                · simp [transcribeMedia, h1, h2, h3, h4] at h
                  rw [← h.1]
                  exact h4

/-- C5: past the input checks, a response whose text field is absent or
empty makes `transcribeMedia` fail with the EmptyResponse message (which
survives the catch mapping and differs from every other fixed error
message of the client), and every successful result carries non-empty
text. -/
theorem transcribeMedia_empty_response (apiKey base64Data mimeType : String)
    (includeTimestamps : Bool) (hkey : ¬ (apiKey = "")) (hdata : ¬ (base64Data = ""))
    (hsize : base64Data.length * 3 ≤ 500 * 1024 * 1024 * 4) :
    (transcribeMedia apiKey (RemoteResult.success none) base64Data mimeType
        includeTimestamps).1 = Except.error emptyResponseMsg ∧
    (transcribeMedia apiKey (RemoteResult.success (some "")) base64Data mimeType
        includeTimestamps).1 = Except.error emptyResponseMsg ∧
    (∀ (k d m : String) (ts : Bool) (r : RemoteResult) (t : String)
        (reqs : List GenRequest),
      transcribeMedia k r d m ts = (Except.ok t, reqs) → ¬ (t = "")) ∧
    (¬ (emptyResponseMsg = apiKeyMissingMsg) ∧ ¬ (emptyResponseMsg = mediaDataMissingMsg) ∧
      ¬ (emptyResponseMsg = tooLargeMsg) ∧ ¬ (emptyResponseMsg = mediaRejectedMsg) ∧
      ¬ (emptyResponseMsg = genericServiceMsg)) := by
  have hns : ¬ (500 * 1024 * 1024 * 4 < base64Data.length * 3) := by omega
  refine ⟨?_, ?_, transcribeMedia_ok_nonempty, by decide⟩
  · simp [transcribeMedia, hkey, hdata, hns, mapCaught_empty_resp]
  · simp [transcribeMedia, hkey, hdata, hns, mapCaught_empty_resp]

/-- Witness for C5 at a configured key and the payload "QQ==". -/
theorem transcribeMedia_empty_response_witness :
    (¬ (("k" : String) = "") ∧ ¬ (("QQ==" : String) = "") ∧
      ("QQ==" : String).length * 3 ≤ 500 * 1024 * 1024 * 4) ∧
    (transcribeMedia "k" (RemoteResult.success none) "QQ==" "audio/mpeg" true).1
      = Except.error emptyResponseMsg ∧
    (transcribeMedia "k" (RemoteResult.success (some "")) "QQ==" "audio/mpeg" true).1
      = Except.error emptyResponseMsg :=
  ⟨⟨by decide, by decide, by decide⟩,
    (transcribeMedia_empty_response "k" "QQ==" "audio/mpeg" true
      (by decide) (by decide) (by decide)).1,
    (transcribeMedia_empty_response "k" "QQ==" "audio/mpeg" true
      (by decide) (by decide) (by decide)).2.1⟩

/-- C6 fails as stated: for a remote failure whose message is the empty
string (which indicates no invalid-argument condition), the surfaced error
does not carry the underlying message; the code substitutes the generic
fallback text instead. -/
theorem transcribeMedia_failure_empty_msg_cex :
    (transcribeMedia "k" (RemoteResult.failure "") "QQ==" "audio/mpeg" true).1
        = Except.error genericServiceMsg ∧
    strContains "" invalidVideoNeedle = false ∧
    strContains "" invalidArgNeedle = false ∧
    ¬ (genericServiceMsg = "") := by
  refine ⟨?_, by decide, by decide, by decide⟩
  rfl

/-- C6 amended: past the input checks, a remote failure whose non-empty
message contains "Invalid video data" or "INVALID_ARGUMENT" is surfaced as
the MediaRejected message with format/size guidance; any other failure is
surfaced with its own underlying message when that message is non-empty,
and with the generic service message when it is empty. -/
theorem transcribeMedia_failure_mapping (apiKey base64Data mimeType msg : String)
    (includeTimestamps : Bool) (hkey : ¬ (apiKey = "")) (hdata : ¬ (base64Data = ""))
    (hsize : base64Data.length * 3 ≤ 500 * 1024 * 1024 * 4) :
    (¬ (msg = "") →
      (strContains msg invalidVideoNeedle || strContains msg invalidArgNeedle) = true →
      (transcribeMedia apiKey (RemoteResult.failure msg) base64Data mimeType
          includeTimestamps).1 = Except.error mediaRejectedMsg) ∧
    (¬ (msg = "") →
      (strContains msg invalidVideoNeedle || strContains msg invalidArgNeedle) = false →
      (transcribeMedia apiKey (RemoteResult.failure msg) base64Data mimeType
          includeTimestamps).1 = Except.error msg) ∧
    (msg = "" →
      (transcribeMedia apiKey (RemoteResult.failure msg) base64Data mimeType
          includeTimestamps).1 = Except.error genericServiceMsg) := by
  have hns : ¬ (500 * 1024 * 1024 * 4 < base64Data.length * 3) := by omega
  refine ⟨?_, ?_, ?_⟩
  · intro hm htrig
    simp [transcribeMedia, hkey, hdata, hns, mapCaughtError, hm, htrig]
  · intro hm htrig
    simp [transcribeMedia, hkey, hdata, hns, mapCaughtError, hm, htrig]
  · intro hm
    subst hm
    simp [transcribeMedia, hkey, hdata, hns, mapCaught_empty_msg]

/-- Witness for C6 amended: the three failure messages
"INVALID_ARGUMENT: boom", "boom" and the empty message, each mapped on the
payload "QQ==". -/
theorem transcribeMedia_failure_mapping_witness :
    (transcribeMedia "k" (RemoteResult.failure "INVALID_ARGUMENT: boom") "QQ=="
        "audio/mpeg" true).1 = Except.error mediaRejectedMsg ∧
    (transcribeMedia "k" (RemoteResult.failure "boom") "QQ=="
        "audio/mpeg" true).1 = Except.error "boom" ∧
    (transcribeMedia "k" (RemoteResult.failure "") "QQ=="
        "audio/mpeg" true).1 = Except.error genericServiceMsg :=
  ⟨(transcribeMedia_failure_mapping "k" "QQ==" "audio/mpeg" "INVALID_ARGUMENT: boom" true
      (by decide) (by decide) (by decide)).1 (by decide) (by decide),
    (transcribeMedia_failure_mapping "k" "QQ==" "audio/mpeg" "boom" true
      (by decide) (by decide) (by decide)).2.1 (by decide) (by decide),
    (transcribeMedia_failure_mapping "k" "QQ==" "audio/mpeg" "" true
      (by decide) (by decide) (by decide)).2.2 rfl⟩

/-- C7: for every MIME type and timestamp flag, the instruction text names
the video kind exactly when the MIME type starts with "video" (otherwise
the audio kind), contains the [HH:MM:SS] timestamp requirement exactly
when the flag is set, and contains the explicit timestamp prohibition
exactly when the flag is unset. -/
theorem transcribeMedia_prompt_spec (mimeType : String) (includeTimestamps : Bool) :
    strContains (promptText mimeType includeTimestamps) "video"
        = mimeType.startsWith "video" ∧
    strContains (promptText mimeType includeTimestamps) timestampOnMsg
        = includeTimestamps ∧
    strContains (promptText mimeType includeTimestamps) timestampOffMsg
        = !includeTimestamps :=
  promptText_contains mimeType includeTimestamps

/-- C10: calling `transcribeMedia` without the timestamp argument is the
same as passing `true` (the declared default of the flag), and with the
flag `true` the generated instruction contains the timestamp
requirement. -/
theorem transcribeMedia_default_timestamps (apiKey : String) (remote : RemoteResult)
    (base64Data mimeType : String) :
    transcribeMedia apiKey remote base64Data mimeType
        = transcribeMedia apiKey remote base64Data mimeType true ∧
    strContains (promptText mimeType true) timestampOnMsg = true :=
  ⟨rfl, (promptText_contains mimeType true).2.1⟩

/-- Application status enumeration of the orchestration layer
(`src/types.ts` lines 6-11). -/
inductive AppStatus where
  | IDLE
  | PROCESSING
  | SUCCESS
  | ERROR
deriving DecidableEq, Fintype

/-- Modelled from the spec: the five-state conceptual AppState enumeration
of spec §3 (Idle, Preparing, Processing, Success, Error); the source
declares no such five-value type. -/
inductive SpecAppState where
  | Idle
  | Preparing
  | Processing
  | Success
  | Error
deriving DecidableEq, Fintype

/-- Derived five-state view of the code's state: the orchestration layer
tracks the four-value status plus a separate `isPreparing` boolean
(`src/unnamed/part_001` lines 10-11); the conceptual Preparing state is
active exactly when that boolean is set. -/
def derivedAppState (status : AppStatus) (isPreparing : Bool) : SpecAppState :=
  if isPreparing then SpecAppState.Preparing
  else
    match status with
    | AppStatus.IDLE => SpecAppState.Idle
    | AppStatus.PROCESSING => SpecAppState.Processing
    | AppStatus.SUCCESS => SpecAppState.Success
    | AppStatus.ERROR => SpecAppState.Error

/-- File data held by the orchestration layer (`src/types.ts` lines 13-17):
the selected file (an opaque name here), its preview URL and its base64
payload. -/
structure FileData where
  file : String
  previewUrl : String
  base64 : String
deriving DecidableEq

/-- Orchestration state of the App component (`src/unnamed/part_001` lines
10-16): the status enumeration, the preparing flag, the optional file
data, the optional transcription and the optional error message. -/
structure AppModel where
  status : AppStatus
  isPreparing : Bool
  fileData : Option FileData
  transcription : Option String
  errorMsg : Option String
deriving DecidableEq

/-- Failure message of the `handleFileSelect` catch block when the thrown
error carries no message (`src/unnamed/part_001` line 74). -/
def fileProcessingFallbackMsg : String :=
  "Failed to process file. Please try another one."

/-- Model of `handleFileSelect` (`src/unnamed/part_001` lines 56-78),
applied to the current state: it unconditionally resets the status to
IDLE, clears the error, the transcription and the file data, prepares the
newly selected file (the awaited `fileToBase64` outcome is the `enc`
parameter) and finally clears the preparing flag. It never calls
`transcribeMedia`, so its second component, the number of transcription
requests it issues, is zero. -/
def handleFileSelect (_state : AppModel) (file previewUrl : String)
    (enc : Except String String) : AppModel × Nat :=
  match enc with
  | Except.ok b64 =>
      ({ status := AppStatus.IDLE, isPreparing := false,
         fileData := some ⟨file, previewUrl, b64⟩,
         transcription := none, errorMsg := none }, 0)
  | Except.error m =>
      ({ status := AppStatus.IDLE, isPreparing := false,
         fileData := none, transcription := none,
         errorMsg := some (if m = "" then fileProcessingFallbackMsg else m) }, 0)

/-- C8 fails as stated: the application-state enumeration of the code has
exactly four values, not five; there is no Preparing value in
`AppStatus`. -/
theorem appStatus_card_cex :
    Fintype.card AppStatus = 4 ∧ ¬ (Fintype.card AppStatus = 5) := by
  constructor <;> decide

/-- C8 amended: the code's application state is the four-value enumeration
Idle, Processing, Success, Error together with a separate preparing flag;
the five conceptual states of the spec arise as the derived view
`derivedAppState`, which assigns exactly one of five states to every code
state, is Preparing exactly when the flag is set, and realizes all five
states. -/
theorem appState_five_view :
    Fintype.card AppStatus = 4 ∧ Fintype.card SpecAppState = 5 ∧
    (∀ (st : AppStatus) (p : Bool),
      derivedAppState st p = SpecAppState.Preparing ↔ p = true) ∧
    Function.Surjective (fun q : AppStatus × Bool => derivedAppState q.1 q.2) := by
  refine ⟨by decide, by decide, by decide, ?_⟩
  intro v
  cases v with
  | Idle => exact ⟨(AppStatus.IDLE, false), rfl⟩
  | Preparing => exact ⟨(AppStatus.IDLE, true), rfl⟩
  | Processing => exact ⟨(AppStatus.PROCESSING, false), rfl⟩
  | Success => exact ⟨(AppStatus.SUCCESS, false), rfl⟩
  | Error => exact ⟨(AppStatus.ERROR, false), rfl⟩

/-- C9 fails as stated: from a state whose status is PROCESSING, selecting
a new file is not rejected or ignored; `handleFileSelect` resets the
status to IDLE, so the state does not remain Processing. -/
theorem handleFileSelect_processing_cex :
    (handleFileSelect
        ⟨AppStatus.PROCESSING, false, some ⟨"f", "u", "QQ=="⟩, none, none⟩
        "g" "u2" (Except.ok "QkJC")).1.status = AppStatus.IDLE ∧
    ¬ (AppStatus.IDLE = AppStatus.PROCESSING) := by
  constructor
  · rfl
  · decide

/-- C9 amended: selecting a file while the orchestration layer is in the
Processing state is handled as reset-then-proceed, not undefined
behaviour: the status becomes Idle, the stale transcription is cleared,
the preparing flag ends cleared, and `handleFileSelect` issues no
transcription request, so no duplicate request arises. -/
theorem handleFileSelect_processing (s : AppModel) (file previewUrl : String)
    (enc : Except String String) (hs : s.status = AppStatus.PROCESSING) :
    (handleFileSelect s file previewUrl enc).1.status = AppStatus.IDLE ∧
    (handleFileSelect s file previewUrl enc).1.transcription = none ∧
    (handleFileSelect s file previewUrl enc).1.isPreparing = false ∧
    (handleFileSelect s file previewUrl enc).2 = 0 := by
  cases enc <;> exact ⟨rfl, rfl, rfl, rfl⟩

/-- Witness for C9 amended at a concrete Processing state and a failing
encode outcome. -/
theorem handleFileSelect_processing_witness :
    (⟨AppStatus.PROCESSING, false, some ⟨"f", "u", "QQ=="⟩, none, none⟩ : AppModel).status
        = AppStatus.PROCESSING ∧
    ((handleFileSelect
        ⟨AppStatus.PROCESSING, false, some ⟨"f", "u", "QQ=="⟩, none, none⟩
        "g" "u2" (Except.error "boom")).1.status = AppStatus.IDLE ∧
      (handleFileSelect
        ⟨AppStatus.PROCESSING, false, some ⟨"f", "u", "QQ=="⟩, none, none⟩
        "g" "u2" (Except.error "boom")).1.transcription = none ∧
      (handleFileSelect
        ⟨AppStatus.PROCESSING, false, some ⟨"f", "u", "QQ=="⟩, none, none⟩
        "g" "u2" (Except.error "boom")).1.isPreparing = false ∧
      (handleFileSelect
        ⟨AppStatus.PROCESSING, false, some ⟨"f", "u", "QQ=="⟩, none, none⟩
        "g" "u2" (Except.error "boom")).2 = 0) :=
  ⟨rfl, handleFileSelect_processing _ "g" "u2" (Except.error "boom") rfl⟩
